import Mathlib

/-!
Verification of the EZLang interpreter (the Python pipeline embedded in
`src/script.js`): lexer (`lex`), recursive-descent Parser class, tree-walking
Interpreter class and the `run_ezlang` entry point.  The definitions below are
a shallow embedding of that code: Python strings become Lean `String`/`List
Char`, Python exceptions become `Except String`, and the dynamically typed
runtime values become the closed sum `Value`.
-/

namespace EZ

/-- Token kinds, exactly the names of the `token_specs` table in `lex`
(the `SKIP` entry never produces a token, so it has no constructor). -/
inductive TokKind where
  | NUMBER | STRING | PRINT | IF | LBRACE | RBRACE
  | ASSIGN | OP | COMPARE | LPAREN | RPAREN | IDENTIFIER
deriving DecidableEq

/-- The second component of a Python token tuple: `int(value)` for NUMBER,
the (possibly trimmed) matched text for every other kind. -/
inductive TokVal where
  | vint (n : Int)
  | vstr (s : String)
deriving DecidableEq

/-- A token `(kind, value)` as appended by `lex`. -/
structure Token where
  kind : TokKind
  val  : TokVal
deriving DecidableEq

/-- Name of a token kind as it appears in Python error messages. -/
def kindName : TokKind → String
  | .NUMBER => "NUMBER" | .STRING => "STRING" | .PRINT => "PRINT"
  | .IF => "IF" | .LBRACE => "LBRACE" | .RBRACE => "RBRACE"
  | .ASSIGN => "ASSIGN" | .OP => "OP" | .COMPARE => "COMPARE"
  | .LPAREN => "LPAREN" | .RPAREN => "RPAREN" | .IDENTIFIER => "IDENTIFIER"

/-- Characters matched by the `IDENTIFIER` pattern `[a-zA-Z_]+`
(`Char.isAlpha` is exactly the ASCII ranges `a`-`z` and `A`-`Z`). -/
def isIdentC (c : Char) : Bool := c.isAlpha || c = '_'

/-- Characters matched by the `SKIP` pattern `[ \t\n]+`. -/
def isSkipC (c : Char) : Bool := c = ' ' || c = '\t' || c = '\n'

/-- Numeric value of a scanned digit run, i.e. Python `int(value)`. -/
def digitsVal (l : List Char) : Int :=
  (l.foldl (fun a c => a * 10 + (c.toNat - '0'.toNat)) 0 : Nat)

/-- One scan step of `re.finditer` over the alternation built from
`token_specs`: at the current position the alternatives are tried in the
order of the table and the first one that matches wins (Python alternation
has no longest-match rule), each `+`/`?`/`*` quantifier matching greedily.
Returns `some (some tok, rest)` when a token-producing pattern matches,
`some (none, rest)` when `SKIP` matches, and `none` when no pattern matches
at this position (in which case `re.finditer` advances one character).
The numeric class `\d` is modelled as the ASCII digits, which are the only
digits occurring in this development. -/
def matchSpec : List Char → Option (Option Token × List Char)
  | [] => none
  | c :: rest =>
    if c.isDigit then
      -- NUMBER: r'\d+', greedy; the value is int(text)
      some (some ⟨.NUMBER, .vint (digitsVal (c :: rest.takeWhile Char.isDigit))⟩,
            rest.dropWhile Char.isDigit)
    else if c = '"' then
      -- STRING: r'"[^"]*"'; the value drops the two quotes.  Dropping the
      -- non-quote run either ends at the closing quote (which `tail`
      -- removes) or exhausts the input: then STRING fails, and no later
      -- alternative can match a text that starts with a double quote
      if rest.dropWhile (· ≠ '"') = [] then none
      else some (some ⟨.STRING, .vstr ⟨rest.takeWhile (· ≠ '"')⟩⟩,
        (rest.dropWhile (· ≠ '"')).tail)
    else if List.isPrefixOf ['p', 'r', 'i', 'n', 't'] (c :: rest) then
      some (some ⟨.PRINT, .vstr "print"⟩, rest.drop 4)
    else if List.isPrefixOf ['i', 'f'] (c :: rest) then
      some (some ⟨.IF, .vstr "if"⟩, rest.drop 1)
    else if c = '\x7b' then some (some ⟨.LBRACE, .vstr "\x7b"⟩, rest)
    else if c = '\x7d' then some (some ⟨.RBRACE, .vstr "\x7d"⟩, rest)
    else if c = '=' then some (some ⟨.ASSIGN, .vstr "="⟩, rest)
    else if c = '+' || c = '-' || c = '*' || c = '/' then
      some (some ⟨.OP, .vstr ⟨[c]⟩⟩, rest)
    else if c = '<' || c = '>' then
      -- COMPARE: r'[<>]=?|==', the optional '=' taken greedily
      if rest.head? = some '=' then some (some ⟨.COMPARE, .vstr ⟨[c, '=']⟩⟩, rest.tail)
      else some (some ⟨.COMPARE, .vstr ⟨[c]⟩⟩, rest)
    else if List.isPrefixOf ['=', '='] (c :: rest) then
      -- the second COMPARE alternative '=='; dead in the original program as
      -- well, because the ASSIGN pattern '=' is tried first and matches any
      -- text that starts with '='
      some (some ⟨.COMPARE, .vstr "=="⟩, rest.drop 1)
    else if c = '(' then some (some ⟨.LPAREN, .vstr "("⟩, rest)
    else if c = ')' then some (some ⟨.RPAREN, .vstr ")"⟩, rest)
    else if isIdentC c then
      some (some ⟨.IDENTIFIER, .vstr ⟨c :: rest.takeWhile isIdentC⟩⟩,
            rest.dropWhile isIdentC)
    else if isSkipC c then
      some (none, rest.dropWhile isSkipC)
    else none

/-- The scanning loop of `lex`: `re.finditer` yields the successive
non-overlapping matches left to right; a position where nothing matches is
passed over one character at a time.  Every match consumes at least one
character, so `fuel = length of the input` is enough fuel. -/
def lexFuel : Nat → List Char → List Token
  | 0, _ => []
  | _ + 1, [] => []
  | fuel + 1, c :: rest =>
    match matchSpec (c :: rest) with
    | some (some tok, rest') => tok :: lexFuel fuel rest'
    | some (none, rest') => lexFuel fuel rest'
    | none => lexFuel fuel rest

/-- `lex` on an explicit character list. -/
def lexList (s : List Char) : List Token := lexFuel s.length s

/-- Lexer: split code into tokens (the Python function `lex`). -/
def lex (code : String) : List Token := lexList code.data

/-! ### Abstract syntax

The Python code builds the AST out of raw values and tuples: an expression is
an `int`, a `str`, `('var', name)` or `(op, left, right)`; a statement is
`('print', e)`, `('if', cond, body)` or `('assign', name, e)`.  The operator
of a binary node and the name of a variable are token values taken verbatim
from the token (`self.consume(...)[1]`), hence of type `TokVal`. -/

inductive Expr where
  | elit (n : Int)
  | estr (s : String)
  | evar (name : TokVal)
  | ebin (op : TokVal) (l r : Expr)
deriving DecidableEq

inductive Stmt where
  | sprint (e : Expr)
  | sif (cond : Expr) (body : List Stmt)
  | sassign (name : TokVal) (e : Expr)

/-! ### The recursive-descent Parser class

The Python class keeps the token list and a cursor `self.pos`; each method
returns a node and advances the cursor.  Here each method becomes a function
`List Token → Nat → Except String (α × Nat)`; a raised `SyntaxError` becomes
`.error` with the exact message text.  When a message f-string indexes
`self.tokens[self.pos]` out of range, Python raises `IndexError('list index
out of range')` instead of the `SyntaxError`; both are caught by the same
`except` in `run_ezlang`, so both are `.error` here, with the message CPython
would produce.  The parsing recursion is fuelled: every cycle in the call
graph (`parse_primary → parse_expr` under a parenthesis, `parse_if → body →
parse_stmt`, and each `while` loop) first consumes at least one token, so the
call depth — and hence the fuel spent — of any parse is bounded by a small
multiple of the token count, and the generous fuel passed by `parseProgram`
can never run out. -/

/-- Python repr of a string, as used when an error-message f-string formats a
token tuple.  Quote choice and the escapes for quote, backslash and control
characters follow CPython; printable characters are kept literally (non-ASCII
non-printable characters, which CPython would also escape, do not occur in
the token values of this development). -/
def pyReprStr (s : String) : String :=
  let q : Char := if s.data.contains '\'' && !(s.data.contains '"') then '"' else '\''
  let esc : Char → String := fun c =>
    if c = q then "\\" ++ ⟨[q]⟩
    else if c = '\\' then "\\\\"
    else if c = '\n' then "\\n"
    else if c = '\r' then "\\r"
    else if c = '\t' then "\\t"
    else if c.toNat < 32 || c.toNat = 127 then
      "\\x" ++ ⟨[Nat.digitChar (c.toNat / 16), Nat.digitChar (c.toNat % 16)]⟩
    else ⟨[c]⟩
  ⟨[q]⟩ ++ String.join (s.data.map esc) ++ ⟨[q]⟩

/-- Python repr of a token value (the second tuple component). -/
def pyReprVal : TokVal → String
  | .vint n => toString n
  | .vstr s => pyReprStr s

/-- Python repr of a token tuple `(kind, value)`, as interpolated into the
`SyntaxError` message f-strings. -/
def pyReprToken (t : Token) : String :=
  "('" ++ kindName t.kind ++ "', " ++ pyReprVal t.val ++ ")"

/-- `Parser.peek`: `self.pos < len(self.tokens) and self.tokens[self.pos][0] == kind`. -/
def peekK (toks : List Token) (pos : Nat) (k : TokKind) : Bool :=
  match toks.get? pos with
  | some t => t.kind = k
  | none => false

/-- `Parser.peek_next`: the same test one token ahead. -/
def peekNextK (toks : List Token) (pos : Nat) (k : TokKind) : Bool :=
  peekK toks (pos + 1) k

/-- `Parser.consume`: return the current token and advance when its kind
matches, otherwise raise.  The `SyntaxError` f-string itself indexes
`self.tokens[self.pos]`, so at end of input the raised error is CPython's
`IndexError`. -/
def consumeT (toks : List Token) (pos : Nat) (k : TokKind) :
    Except String (Token × Nat) :=
  match toks.get? pos with
  | some t =>
    if t.kind = k then .ok (t, pos + 1)
    else .error ("Expected " ++ kindName k ++ ", got " ++ kindName t.kind)
  | none => .error "list index out of range"

mutual

/-- `Parser.parse_primary`. -/
def parsePrimary : Nat → List Token → Nat → Except String (Expr × Nat)
  | 0, _, _ => .error "internal: out of fuel"
  | fuel + 1, toks, pos =>
    if peekK toks pos .NUMBER then
      match consumeT toks pos .NUMBER with
      | .ok (t, pos') =>
        .ok (match t.val with | .vint n => .elit n | .vstr s => .estr s, pos')
      | .error e => .error e
    else if peekK toks pos .STRING then
      match consumeT toks pos .STRING with
      | .ok (t, pos') =>
        .ok (match t.val with | .vint n => .elit n | .vstr s => .estr s, pos')
      | .error e => .error e
    else if peekK toks pos .IDENTIFIER then
      match consumeT toks pos .IDENTIFIER with
      | .ok (t, pos') => .ok (.evar t.val, pos')
      | .error e => .error e
    else if peekK toks pos .LPAREN then
      match consumeT toks pos .LPAREN with
      | .ok (_, pos') =>
        match parseExprF fuel toks pos' with
        | .ok (node, pos'') =>
          match consumeT toks pos'' .RPAREN with
          | .ok (_, pos''') => .ok (node, pos''')
          | .error e => .error e
        | .error e => .error e
      | .error e => .error e
    else
      match toks.get? pos with
      | some t => .error ("Unexpected token: " ++ pyReprToken t)
      | none => .error "list index out of range"

  termination_by structural fuel => fuel
/-- The `while` loop of `Parser.parse_mul_div`. -/
def parseMulDivLoop : Nat → List Token → Expr → Nat → Except String (Expr × Nat)
  | 0, _, _, _ => .error "internal: out of fuel"
  | fuel + 1, toks, node, pos =>
    if peekK toks pos .OP &&
        (match toks.get? pos with
         | some t => t.val = .vstr "*" || t.val = .vstr "/"
         | none => false) then
      match consumeT toks pos .OP with
      | .ok (t, pos') =>
        match parsePrimary fuel toks pos' with
        | .ok (rhs, pos'') => parseMulDivLoop fuel toks (.ebin t.val node rhs) pos''
        | .error e => .error e
      | .error e => .error e
    else .ok (node, pos)

  termination_by structural fuel => fuel
/-- `Parser.parse_mul_div`. -/
def parseMulDiv : Nat → List Token → Nat → Except String (Expr × Nat)
  | 0, _, _ => .error "internal: out of fuel"
  | fuel + 1, toks, pos =>
    match parsePrimary fuel toks pos with
    | .ok (node, pos') => parseMulDivLoop fuel toks node pos'
    | .error e => .error e

  termination_by structural fuel => fuel
/-- The `while` loop of `Parser.parse_add_sub`. -/
def parseAddSubLoop : Nat → List Token → Expr → Nat → Except String (Expr × Nat)
  | 0, _, _, _ => .error "internal: out of fuel"
  | fuel + 1, toks, node, pos =>
    if peekK toks pos .OP &&
        (match toks.get? pos with
         | some t => t.val = .vstr "+" || t.val = .vstr "-"
         | none => false) then
      match consumeT toks pos .OP with
      | .ok (t, pos') =>
        match parseMulDiv fuel toks pos' with
        | .ok (rhs, pos'') => parseAddSubLoop fuel toks (.ebin t.val node rhs) pos''
        | .error e => .error e
      | .error e => .error e
    else .ok (node, pos)

  termination_by structural fuel => fuel
/-- `Parser.parse_add_sub`. -/
def parseAddSub : Nat → List Token → Nat → Except String (Expr × Nat)
  | 0, _, _ => .error "internal: out of fuel"
  | fuel + 1, toks, pos =>
    match parseMulDiv fuel toks pos with
    | .ok (node, pos') => parseAddSubLoop fuel toks node pos'
    | .error e => .error e

  termination_by structural fuel => fuel
/-- `Parser.parse_compare`: at most one comparison, not chainable. -/
def parseCompare : Nat → List Token → Nat → Except String (Expr × Nat)
  | 0, _, _ => .error "internal: out of fuel"
  | fuel + 1, toks, pos =>
    match parseAddSub fuel toks pos with
    | .ok (left, pos') =>
      if peekK toks pos' .COMPARE then
        match consumeT toks pos' .COMPARE with
        | .ok (t, pos'') =>
          match parseAddSub fuel toks pos'' with
          | .ok (right, pos''') => .ok (.ebin t.val left right, pos''')
          | .error e => .error e
        | .error e => .error e
      else .ok (left, pos')
    | .error e => .error e

  termination_by structural fuel => fuel
/-- `Parser.parse_expr`. -/
def parseExprF : Nat → List Token → Nat → Except String (Expr × Nat)
  | 0, _, _ => .error "internal: out of fuel"
  | fuel + 1, toks, pos => parseCompare fuel toks pos

  termination_by structural fuel => fuel
end

mutual

/-- `Parser.parse_stmt`, dispatching on the statement-start forms; the final
`else` raises with the offending token (or CPython's `IndexError` when the
f-string indexes past the end). -/
def parseStmtF : Nat → List Token → Nat → Except String (Stmt × Nat)
  | 0, _, _ => .error "internal: out of fuel"
  | fuel + 1, toks, pos =>
    if peekK toks pos .PRINT then
      -- parse_print
      match consumeT toks pos .PRINT with
      | .ok (_, pos') =>
        match parseExprF fuel toks pos' with
        | .ok (e, pos'') => .ok (.sprint e, pos'')
        | .error e => .error e
      | .error e => .error e
    else if peekK toks pos .IF then
      -- parse_if
      match consumeT toks pos .IF with
      | .ok (_, pos') =>
        match parseExprF fuel toks pos' with
        | .ok (cond, pos'') =>
          match consumeT toks pos'' .LBRACE with
          | .ok (_, pos''') =>
            match parseIfBody fuel toks pos''' with
            | .ok (body, pos4) =>
              match consumeT toks pos4 .RBRACE with
              | .ok (_, pos5) => .ok (.sif cond body, pos5)
              | .error e => .error e
            | .error e => .error e
          | .error e => .error e
        | .error e => .error e
      | .error e => .error e
    else if peekK toks pos .IDENTIFIER && peekNextK toks pos .ASSIGN then
      -- parse_assignment
      match consumeT toks pos .IDENTIFIER with
      | .ok (t, pos') =>
        match consumeT toks pos' .ASSIGN with
        | .ok (_, pos'') =>
          match parseExprF fuel toks pos'' with
          | .ok (e, pos''') => .ok (.sassign t.val e, pos''')
          | .error e => .error e
        | .error e => .error e
      | .error e => .error e
    else
      match toks.get? pos with
      | some t => .error ("Invalid statement at token " ++ pyReprToken t)
      | none => .error "list index out of range"

  termination_by structural fuel => fuel
/-- The body loop of `Parser.parse_if`:
`while not self.peek('RBRACE'): body.append(self.parse_stmt())`. -/
def parseIfBody : Nat → List Token → Nat → Except String (List Stmt × Nat)
  | 0, _, _ => .error "internal: out of fuel"
  | fuel + 1, toks, pos =>
    if peekK toks pos .RBRACE then .ok ([], pos)
    else
      match parseStmtF fuel toks pos with
      | .ok (s, pos') =>
        match parseIfBody fuel toks pos' with
        | .ok (body, pos'') => .ok (s :: body, pos'')
        | .error e => .error e
      | .error e => .error e

  termination_by structural fuel => fuel
end

/-- The top-level loop of `Parser.parse`:
`while self.pos < len(self.tokens): stmts.append(self.parse_stmt())`. -/
def parseLoop : Nat → List Token → Nat → Except String (List Stmt)
  | 0, _, _ => .error "internal: out of fuel"
  | fuel + 1, toks, pos =>
    if pos < toks.length then
      match parseStmtF fuel toks pos with
      | .ok (s, pos') =>
        match parseLoop fuel toks pos' with
        | .ok rest => .ok (s :: rest)
        | .error e => .error e
      | .error e => .error e
    else .ok []

/-- `Parser(tokens).parse()`.  The fuel bounds the call depth; since every
cycle of the recursion first consumes a token, depth `8 * length + 64` is
never reached (see the section comment above). -/
def parseProgram (toks : List Token) : Except String (List Stmt) :=
  parseLoop (8 * toks.length + 64) toks 0

/-! ### Runtime values and the Interpreter class

The interpreter manipulates native Python values: `int`, `str`, `bool`
(produced by the comparison operators) and `None` (the implicit return value
of `eval_expr` when the operator string matches no branch — dead code, kept
for fidelity).  The operator semantics below are CPython's: `bool` is a
subclass of `int` and is coerced in arithmetic and ordering, `int * str` is
sequence repetition, `//` is floor division, `==` across unrelated types is
`False` rather than an error. -/

inductive Value where
  | vint (n : Int)
  | vstr (s : String)
  | vbool (b : Bool)
  | vnone
deriving DecidableEq

/-- The CPython type name, as it appears in `TypeError` messages. -/
def typeName : Value → String
  | .vint _ => "int"
  | .vstr _ => "str"
  | .vbool _ => "bool"
  | .vnone => "NoneType"

/-- Numeric view: `int` is itself, `bool` counts as `1`/`0` (CPython's
`bool` is a subclass of `int`); `str` and `None` are not numbers. -/
def asNum : Value → Option Int
  | .vint n => some n
  | .vbool b => some (if b then 1 else 0)
  | _ => none

/-- Python sequence repetition `s * n` (negative counts give `''`). -/
def strRepeat (n : Int) (s : String) : String :=
  String.join (List.replicate n.toNat s)

/-- Python `l + r`. -/
def pyAdd (l r : Value) : Except String Value :=
  match asNum l, asNum r with
  | some a, some b => .ok (.vint (a + b))
  | _, _ =>
    match l, r with
    | .vstr a, .vstr b => .ok (.vstr (a ++ b))
    | .vstr _, _ =>
      .error ("can only concatenate str (not \"" ++ typeName r ++ "\") to str")
    | _, _ =>
      .error ("unsupported operand type(s) for +: '" ++ typeName l ++ "' and '" ++
        typeName r ++ "'")

/-- Python `l - r`. -/
def pySub (l r : Value) : Except String Value :=
  match asNum l, asNum r with
  | some a, some b => .ok (.vint (a - b))
  | _, _ =>
    .error ("unsupported operand type(s) for -: '" ++ typeName l ++ "' and '" ++
      typeName r ++ "'")

/-- Python `l * r`: numbers multiply, an `int`/`bool` with a `str` repeats
the string, a `str` with anything non-numeric raises the sequence-repetition
`TypeError`. -/
def pyMul (l r : Value) : Except String Value :=
  match asNum l, asNum r with
  | some a, some b => .ok (.vint (a * b))
  | some a, none =>
    match r with
    | .vstr s => .ok (.vstr (strRepeat a s))
    | _ =>
      .error ("unsupported operand type(s) for *: '" ++ typeName l ++ "' and '" ++
        typeName r ++ "'")
  | none, _ =>
    match l, asNum r with
    | .vstr s, some b => .ok (.vstr (strRepeat b s))
    | .vstr _, none => .error ("can't multiply sequence by non-int of type '" ++
        typeName r ++ "'")
    | _, _ =>
      .error ("unsupported operand type(s) for *: '" ++ typeName l ++ "' and '" ++
        typeName r ++ "'")

/-- Python `l // r`: floor division (`Int.fdiv` rounds toward negative
infinity, exactly like CPython's `//`), `ZeroDivisionError` on a zero
divisor. -/
def pyFloorDiv (l r : Value) : Except String Value :=
  match asNum l, asNum r with
  | some a, some b =>
    if b = 0 then .error "integer division or modulo by zero"
    else .ok (.vint (Int.fdiv a b))
  | _, _ =>
    .error ("unsupported operand type(s) for //: '" ++ typeName l ++ "' and '" ++
      typeName r ++ "'")

/-- Python ordering comparisons (`<`, `>`, `<=`, `>=`): numbers compare
numerically (with `bool` coerced), strings compare lexicographically by code
point, any other pairing raises `TypeError`.  `opSym` is the symbol used in
the error message; `cmpInt`/`cmpStr` decide the result for the two
homogeneous cases. -/
def pyCmp (opSym : String) (cmpInt : Int → Int → Bool)
    (cmpStr : String → String → Bool) (l r : Value) : Except String Value :=
  match asNum l, asNum r with
  | some a, some b => .ok (.vbool (cmpInt a b))
  | _, _ =>
    match l, r with
    | .vstr a, .vstr b => .ok (.vbool (cmpStr a b))
    | _, _ =>
      .error ("'" ++ opSym ++ "' not supported between instances of '" ++
        typeName l ++ "' and '" ++ typeName r ++ "'")

/-- Python `==`: never raises; numbers compare numerically (`bool` coerced),
strings by contents, values of unrelated kinds are simply unequal. -/
def pyEq (l r : Value) : Bool :=
  match asNum l, asNum r with
  | some a, some b => a = b
  | _, _ =>
    match l, r with
    | .vstr a, .vstr b => a = b
    | .vnone, .vnone => true
    | _, _ => false

/-- The operator dispatch of `Interpreter.eval_expr` on a binary node, in the
order of the Python `if`/`elif` chain.  When the operator value matches no
branch the Python function falls off the end of the `elif` chain and
implicitly returns `None`; that case is unreachable from parsed programs. -/
def applyOp (op : TokVal) (l r : Value) : Except String Value :=
  if op = .vstr "+" then pyAdd l r
  else if op = .vstr "-" then pySub l r
  else if op = .vstr "*" then pyMul l r
  else if op = .vstr "/" then pyFloorDiv l r
  else if op = .vstr ">" then pyCmp ">" (fun a b => b < a) (fun a b => b < a) l r
  else if op = .vstr "<" then pyCmp "<" (fun a b => a < b) (fun a b => a < b) l r
  else if op = .vstr "==" then .ok (.vbool (pyEq l r))
  else if op = .vstr ">=" then pyCmp ">=" (fun a b => b ≤ a) (fun a b => b ≤ a) l r
  else if op = .vstr "<=" then pyCmp "<=" (fun a b => a ≤ b) (fun a b => a ≤ b) l r
  else .ok .vnone

/-- The variable store `self.vars`, a Python dict keyed by the token values
used as names. -/
def Env : Type := List (TokVal × Value)

/-- Dict lookup with default: `self.vars.get(var_name, 0)`. -/
def envGet (vars : Env) (k : TokVal) : Value :=
  match List.find? (fun p => p.1 = k) vars with
  | some p => p.2
  | none => .vint 0

/-- Dict update: `self.vars[var_name] = value`. -/
def envSet (vars : Env) (k : TokVal) (v : Value) : Env :=
  match vars with
  | [] => [(k, v)]
  | (k', v') :: rest => if k' = k then (k, v) :: rest else (k', v') :: envSet rest k v

/-- `Interpreter.eval_expr`: literals evaluate to themselves, a `('var', x)`
node to the bound value or `int 0`, a binary node evaluates its operands left
to right and dispatches on the operator. -/
def evalExpr (vars : Env) : Expr → Except String Value
  | .elit n => .ok (.vint n)
  | .estr s => .ok (.vstr s)
  | .evar x => .ok (envGet vars x)
  | .ebin op l r =>
    match evalExpr vars l with
    | .ok lv =>
      match evalExpr vars r with
      | .ok rv => applyOp op lv rv
      | .error e => .error e
    | .error e => .error e

/-- Python truthiness, as used by `if condition:`. -/
def pyTruthy : Value → Bool
  | .vint n => n ≠ 0
  | .vstr s => s ≠ ""
  | .vbool b => b
  | .vnone => false

/-- Python `str(value)`, as used by the print statement. -/
def pyStr : Value → String
  | .vint n => toString n
  | .vstr s => s
  | .vbool b => if b then "True" else "False"
  | .vnone => "None"

/-- The mutable state of an `Interpreter` instance: the variable store and
the output buffer. -/
structure InterpState where
  vars : Env
  output : List String

/-- A fresh `Interpreter()`: empty variable store, empty output buffer. -/
def Interpreter.init : InterpState := ⟨[], []⟩

/-- `Interpreter.eval_stmt` mapped over a statement list: print renders and
appends to the output buffer, `if` runs its body against the same state when
the condition is truthy, assignment overwrites the variable.  The fuel falls
by one per statement step; a run visits every statement node at most once
(the language has no loops), so the `sizeOf`-based fuel supplied by
`interpRun` cannot run out. -/
def evalStmtsF : Nat → InterpState → List Stmt → Except String InterpState
  | 0, _, _ => .error "internal: out of fuel"
  | _ + 1, st, [] => .ok st
  | fuel + 1, st, stmt :: rest =>
    match stmt with
    | .sprint e =>
      match evalExpr st.vars e with
      | .ok v => evalStmtsF fuel ⟨st.vars, st.output ++ [pyStr v]⟩ rest
      | .error e => .error e
    | .sif cond body =>
      match evalExpr st.vars cond with
      | .ok v =>
        if pyTruthy v then
          match evalStmtsF fuel st body with
          | .ok st' => evalStmtsF fuel st' rest
          | .error e => .error e
        else evalStmtsF fuel st rest
      | .error e => .error e
    | .sassign name e =>
      match evalExpr st.vars e with
      | .ok v => evalStmtsF fuel ⟨envSet st.vars name v, st.output⟩ rest
      | .error e => .error e

/-- `Interpreter().run(ast)`: execute the statements against a fresh state
and join the output buffer with newlines.  `fuel` must exceed the number of
statement steps of the run; the language has no loops, so every statement
node executes at most once. -/
def interpRun (fuel : Nat) (ast : List Stmt) : Except String String :=
  match evalStmtsF fuel Interpreter.init ast with
  | .ok st => .ok (String.intercalate "\n" st.output)
  | .error e => .error e

/-- The `try` body of `run_ezlang`: lex, parse, interpret.  Parsing consumes
at least one token per statement node it builds, so a program of `n` tokens
has at most `n` statement nodes and an execution takes at most `2 * n + 1`
statement steps — the fuel passed to `interpRun` cannot run out. -/
def pipeline (code : String) : Except String String :=
  match parseProgram (lex code) with
  | .ok ast => interpRun (2 * (lex code).length + 8) ast
  | .error e => .error e

/-- `run_ezlang`: the single entry point.  Any failure raised by any stage is
caught by the `except Exception` handler and rendered as one line
`"Error: " + str(e)`. -/
def run_ezlang (code : String) : String :=
  match pipeline code with
  | .ok out => out
  | .error e => "Error: " ++ e

/-- Two successive invocations of the entry point on the same source text,
with nothing happening in between — each invocation builds its own token
list, Parser and `Interpreter()` instance. -/
def runTwice (code : String) : String × String :=
  (run_ezlang code, run_ezlang code)

end EZ


namespace EZ

/-- The executable test properties listed in the specification that no claim
pins down individually, evaluated on the model: printing a string literal,
sequential assignment and reprinting, and a conditional that runs (or skips)
its body. -/
theorem spec_listed_examples :
    run_ezlang "print \"Hello, World!\"" = "Hello, World!" ∧
      run_ezlang "x = 10\nprint x\nx = x + 5\nprint x" = "10\n15" ∧
      run_ezlang "x = 10\nif x > 5 \x7b\n  print \"x is greater than 5\"\n\x7d" =
        "x is greater than 5" ∧
      run_ezlang "x = 3\nif x > 5 \x7b\n  print \"no\"\n\x7d" = "" :=
  ⟨rfl, rfl, rfl, rfl⟩

end EZ


namespace EZ

/-! ### Helper lemmas -/

/-- Flooring division is unchanged by negating both arguments when the
divisor is negative; immediate from the constructor cases of `Int.fdiv`. -/
theorem fdiv_negSucc_eq (a : Int) (n : Nat) :
    a.fdiv (Int.negSucc n) = (-a).fdiv ((n.succ : Nat) : Int) := by
  cases a with
  | ofNat m =>
    cases m with
    | zero => rfl
    | succ m' => rfl
  | negSucc m => rfl

/-- `Int.fdiv` is the floor of the exact rational quotient — the sense in
which CPython's `//` rounds toward negative infinity. -/
theorem fdiv_eq_floor_div (a : Int) {b : Int} (hb : b ≠ 0) :
    a.fdiv b = ⌊(a : ℚ) / (b : ℚ)⌋ := by
  rcases lt_or_gt_of_ne hb with hneg | hpos
  · obtain ⟨n, rfl⟩ : ∃ n : Nat, b = Int.negSucc n := by
      cases b with
      | ofNat m => exact absurd hneg (by exact Int.not_lt.mpr (Int.ofNat_nonneg m))
      | negSucc n => exact ⟨n, rfl⟩
    rw [fdiv_negSucc_eq, Int.fdiv_eq_ediv _ (by positivity)]
    have h2 : ((Int.negSucc n : Int) : ℚ) = -((n : ℚ) + 1) := by
      rw [Int.negSucc_eq]; push_cast; ring
    have h3 : (a : ℚ) / ((Int.negSucc n : Int) : ℚ) = ((-a : Int) : ℚ) / ((n : ℚ) + 1) := by
      rw [h2]; push_cast; rw [div_neg, neg_div]
    rw [h3]
    have h4 := Rat.floor_intCast_div_natCast (-a) (n + 1)
    have h5 : ((n + 1 : Nat) : ℚ) = (n : ℚ) + 1 := by push_cast; ring
    rw [h5] at h4
    rw [h4]
  · obtain ⟨n, rfl⟩ : ∃ n : Nat, b = (n : Int) :=
      ⟨b.toNat, (Int.toNat_of_nonneg hpos.le).symm⟩
    rw [Int.fdiv_eq_ediv _ (by positivity)]
    have h4 := Rat.floor_intCast_div_natCast a n
    rw [← h4]
    norm_cast

/-! ### Claim theorems -/

/-- Claim C1 (code bug): the claim says the two-character sequence of two
equal signs outside a string is lexed as a single COMPARE token and that the
corresponding comparison evaluates to equality of the operands.  The code
contradicts this: the ASSIGN pattern is tried before COMPARE, so the lexer
emits two ASSIGN tokens, and a program using the comparison fails to parse.
This theorem evaluates the code at the failing input. -/
theorem double_equals_lexes_as_two_assign :
    lex "a == b" = [⟨.IDENTIFIER, .vstr "a"⟩, ⟨.ASSIGN, .vstr "="⟩,
        ⟨.ASSIGN, .vstr "="⟩, ⟨.IDENTIFIER, .vstr "b"⟩] ∧
      run_ezlang "print 1 == 2" = "Error: Invalid statement at token ('ASSIGN', '=')" :=
  ⟨rfl, rfl⟩

/-- Claim C2 (counterexample): the claim says lexing stops at the first
character matching no pattern, with no token from that or any later
position.  In fact the unmatched character is skipped and lexing continues:
nothing matches at the leading commercial-at, yet the token of the later
identifier is still produced. -/
theorem unmatched_char_does_not_stop_lexing :
    matchSpec "@x".data = none ∧ lex "@x" = [⟨.IDENTIFIER, .vstr "x"⟩] ∧
      lex "@x" ≠ ([] : List Token) := ⟨rfl, rfl, by decide⟩

/-- Claim C2 (amended): a character at which no token pattern matches is
skipped — the tokens of the remaining text are exactly the tokens of the
text without that character — and no lexical error is raised (the lexer
always returns normally). -/
theorem lex_skips_unmatched_char (c : Char) (rest : List Char)
    (h : matchSpec (c :: rest) = none) :
    lexList (c :: rest) = lexList rest := by
  show lexFuel ((c :: rest).length) (c :: rest) = lexList rest
  rw [List.length_cons]
  simp only [lexFuel, h]
  rfl

/-- Witness for the amended C2 at the concrete input used by the
counterexample. -/
theorem lex_skips_unmatched_char_witness :
    lexList ('@' :: 'x' :: []) = lexList ('x' :: []) :=
  lex_skips_unmatched_char '@' ('x' :: []) (by decide)

/-- Claim C3 (counterexample): the claim says every arithmetic operator
applied to one Integer and one Text operand fails with a runtime error.  The
multiplication operator refutes it: CPython sequence repetition makes
`3 * "ab"` evaluate to `"ababab"`, and the whole program prints it. -/
theorem int_times_text_is_repetition :
    evalExpr [] (.ebin (.vstr "*") (.elit 3) (.estr "ab")) = .ok (.vstr "ababab") ∧
      run_ezlang "print 3 * \"ab\"" = "ababab" := ⟨rfl, rfl⟩

/-- Claim C3 (amended): mixing an Integer and a Text operand fails with the
host's unsupported-operand runtime error for `+`, `-` and `/` (in either
order), but `*` of an Integer and a Text succeeds, yielding the text
repeated (empty for a non-positive count); Integer with Integer is permitted
for all four operators (`/` when the divisor is non-zero), and Text with
Text only for `+`, which concatenates. -/
theorem mixed_arith_operand_behaviour (n : Int) (s : String) (vars : Env) :
    evalExpr vars (.ebin (.vstr "+") (.elit n) (.estr s)) =
        .error "unsupported operand type(s) for +: 'int' and 'str'" ∧
    evalExpr vars (.ebin (.vstr "+") (.estr s) (.elit n)) =
        .error "can only concatenate str (not \"int\") to str" ∧
    evalExpr vars (.ebin (.vstr "-") (.elit n) (.estr s)) =
        .error "unsupported operand type(s) for -: 'int' and 'str'" ∧
    evalExpr vars (.ebin (.vstr "-") (.estr s) (.elit n)) =
        .error "unsupported operand type(s) for -: 'str' and 'int'" ∧
    evalExpr vars (.ebin (.vstr "/") (.elit n) (.estr s)) =
        .error "unsupported operand type(s) for //: 'int' and 'str'" ∧
    evalExpr vars (.ebin (.vstr "/") (.estr s) (.elit n)) =
        .error "unsupported operand type(s) for //: 'str' and 'int'" ∧
    evalExpr vars (.ebin (.vstr "*") (.elit n) (.estr s)) = .ok (.vstr (strRepeat n s)) ∧
    evalExpr vars (.ebin (.vstr "*") (.estr s) (.elit n)) = .ok (.vstr (strRepeat n s)) ∧
    (∀ a b : Int,
      evalExpr vars (.ebin (.vstr "+") (.elit a) (.elit b)) = .ok (.vint (a + b)) ∧
      evalExpr vars (.ebin (.vstr "-") (.elit a) (.elit b)) = .ok (.vint (a - b)) ∧
      evalExpr vars (.ebin (.vstr "*") (.elit a) (.elit b)) = .ok (.vint (a * b)) ∧
      (b ≠ 0 → evalExpr vars (.ebin (.vstr "/") (.elit a) (.elit b)) =
        .ok (.vint (Int.fdiv a b)))) ∧
    (∀ t : String,
      evalExpr vars (.ebin (.vstr "+") (.estr s) (.estr t)) = .ok (.vstr (s ++ t)) ∧
      evalExpr vars (.ebin (.vstr "-") (.estr s) (.estr t)) =
        .error "unsupported operand type(s) for -: 'str' and 'str'" ∧
      evalExpr vars (.ebin (.vstr "*") (.estr s) (.estr t)) =
        .error "can't multiply sequence by non-int of type 'str'" ∧
      evalExpr vars (.ebin (.vstr "/") (.estr s) (.estr t)) =
        .error "unsupported operand type(s) for //: 'str' and 'str'") := by
  refine ⟨rfl, rfl, rfl, rfl, rfl, rfl, rfl, rfl, ?_, ?_⟩
  · intro a b
    refine ⟨rfl, rfl, rfl, ?_⟩
    intro hb
    simp [evalExpr, applyOp, pyFloorDiv, asNum, hb]
  · intro t
    exact ⟨rfl, rfl, rfl, rfl⟩

/-- Witness for the amended C3, discharging the non-zero-divisor hypothesis
at a concrete input. -/
theorem mixed_arith_operand_behaviour_witness :
    evalExpr [] (.ebin (.vstr "/") (.elit 7) (.elit 2)) = .ok (.vint 3) := by
  have h := ((mixed_arith_operand_behaviour 0 "" []).2.2.2.2.2.2.2.2.1 7 2).2.2.2
    (by decide)
  simpa using h

/-- Claim C4 (confirmed): for every input string the entry point returns
normally with a string, and that string is tied to the run that was actually
executed: either the parse succeeded, the interpreter ran to completion with
some final state, and the result is that state's output buffer joined with
newlines — or the pipeline failed with some message and the result is
exactly the error-marker line for that message (in particular it starts with
the error marker).  No exception crosses the boundary: every stage is
modelled by total functions into `Except`, and the handler in `run_ezlang`
catches every error. -/
theorem run_ezlang_total_shape (code : String) :
    (∃ (ast : List Stmt) (st : InterpState),
        parseProgram (lex code) = .ok ast ∧
        evalStmtsF (2 * (lex code).length + 8) Interpreter.init ast = .ok st ∧
        run_ezlang code = String.intercalate "\n" st.output) ∨
      (∃ msg : String, pipeline code = .error msg ∧
        run_ezlang code = "Error: " ++ msg ∧
        "Error: ".data <+: (run_ezlang code).data) := by
  cases hp : parseProgram (lex code) with
  | error e =>
    right
    have hrun : run_ezlang code = "Error: " ++ e := by
      unfold run_ezlang pipeline
      rw [hp]
    have hpl : pipeline code = .error e := by
      unfold pipeline
      rw [hp]
    refine ⟨e, hpl, hrun, ?_⟩
    rw [hrun, String.data_append]
    exact List.prefix_append _ _
  | ok ast =>
    cases he : evalStmtsF (2 * (lex code).length + 8) Interpreter.init ast with
    | error e =>
      right
      have hrun : run_ezlang code = "Error: " ++ e := by
        simp only [run_ezlang, pipeline, interpRun, hp, he]
      have hpl : pipeline code = .error e := by
        simp only [pipeline, interpRun, hp, he]
      refine ⟨e, hpl, hrun, ?_⟩
      rw [hrun, String.data_append]
      exact List.prefix_append _ _
    | ok st =>
      left
      refine ⟨ast, st, rfl, he, ?_⟩
      simp only [run_ezlang, pipeline, interpRun, hp, he]

/-- Claim C5 (confirmed): whenever the pipeline fails — at any stage — the
entry point returns exactly the single error line; in particular any output
already accumulated in the buffer before the failing statement is discarded
with the interpreter state. -/
theorem failed_run_returns_only_error_line (code : String) (msg : String)
    (h : pipeline code = .error msg) :
    run_ezlang code = "Error: " ++ msg := by
  unfold run_ezlang
  rw [h]

/-- Witness for C5: the first print statement has already appended text when
the second statement divides by zero, yet the result is exactly the error
line. -/
theorem failed_run_returns_only_error_line_witness :
    run_ezlang "print \"hi\"\nprint 1 / 0" =
      "Error: " ++ "integer division or modulo by zero" :=
  failed_run_returns_only_error_line _ _ rfl

/-- Claim C7 (confirmed): a division whose right operand evaluates to
Integer 0 always fails with a runtime error (division by zero for numeric
left operands, an unsupported-operand error otherwise), and the entry point
reports it as an error line instead of crashing. -/
theorem division_by_integer_zero_fails :
    (∀ (vars : Env) (l r : Expr), evalExpr vars r = .ok (.vint 0) →
        ∃ msg, evalExpr vars (.ebin (.vstr "/") l r) = .error msg) ∧
      run_ezlang "a = 1\nb = 0\nprint a / b" =
        "Error: integer division or modulo by zero" := by
  refine ⟨?_, rfl⟩
  intro vars l r hr
  cases hl : evalExpr vars l with
  | error e => exact ⟨e, by simp [evalExpr, hl]⟩
  | ok lv =>
    cases lv with
    | vint n =>
      exact ⟨"integer division or modulo by zero",
        by simp [evalExpr, hl, hr, applyOp, pyFloorDiv, asNum]⟩
    | vstr s =>
      exact ⟨"unsupported operand type(s) for //: 'str' and 'int'",
        by simp [evalExpr, hl, hr, applyOp, pyFloorDiv, asNum, typeName]⟩
    | vbool b =>
      exact ⟨"integer division or modulo by zero",
        by simp [evalExpr, hl, hr, applyOp, pyFloorDiv, asNum]⟩
    | vnone =>
      exact ⟨"unsupported operand type(s) for //: 'NoneType' and 'int'",
        by simp [evalExpr, hl, hr, applyOp, pyFloorDiv, asNum, typeName]⟩

/-- Witness for C7 at a concrete division. -/
theorem division_by_integer_zero_fails_witness :
    ∃ msg, evalExpr [] (.ebin (.vstr "/") (.elit 1) (.elit 0)) = .error msg :=
  division_by_integer_zero_fails.1 [] (.elit 1) (.elit 0) rfl

/-- Claim C8 (confirmed): reading a variable that is not bound in the store
never fails and yields Integer 0 (`self.vars.get(var_name, 0)`), and a fresh
run printing an unbound variable outputs the digit zero. -/
theorem unbound_variable_reads_zero :
    (∀ (vars : Env) (name : TokVal), List.find? (fun p => p.1 = name) vars = none →
        evalExpr vars (.evar name) = .ok (.vint 0)) ∧
      run_ezlang "print y" = "0" := by
  refine ⟨?_, rfl⟩
  intro vars name h
  simp [evalExpr, envGet, h]

/-- Witness for C8 on the empty store. -/
theorem unbound_variable_reads_zero_witness :
    evalExpr [] (.evar (.vstr "y")) = .ok (.vint 0) :=
  unbound_variable_reads_zero.1 [] (.vstr "y") rfl

/-- Claim C6 (counterexample): the claim's example program uses a negative
literal, but the grammar has no unary minus (`parse_primary` accepts only
NUMBER, STRING, IDENTIFIER and a parenthesis), so the program fails with a
syntax error instead of printing `-4`. -/
theorem negative_literal_example_fails :
    run_ezlang "a = -7\nb = 2\nprint a / b" = "Error: Unexpected token: ('OP', '-')" ∧
      run_ezlang "a = -7\nb = 2\nprint a / b" ≠ "-4" := ⟨rfl, by decide⟩

/-- Claim C6 (amended): for Integer operands with a non-zero divisor the
division operator yields the floor of the exact rational quotient (rounding
toward negative infinity, not toward zero); since the language has no
negative literals, the example is written with a subtraction and prints
`-4`. -/
theorem division_is_floor_division :
    (∀ (vars : Env) (a b : Int), b ≠ 0 →
        evalExpr vars (.ebin (.vstr "/") (.elit a) (.elit b)) =
          .ok (.vint ⌊(a : ℚ) / (b : ℚ)⌋)) ∧
      run_ezlang "a = 0 - 7\nb = 2\nprint a / b" = "-4" := by
  refine ⟨?_, rfl⟩
  intro vars a b hb
  have h := fdiv_eq_floor_div a hb
  simp [evalExpr, applyOp, pyFloorDiv, asNum, hb, h]

/-- Witness for the amended C6: minus seven over two floors to minus four. -/
theorem division_is_floor_division_witness :
    evalExpr [] (.ebin (.vstr "/") (.elit (-7)) (.elit 2)) = .ok (.vint (-4)) := by
  have h := division_is_floor_division.1 [] (-7) 2 (by decide)
  rw [h]
  norm_num

/-- Claim C9 (confirmed): the pipeline is a pure function of the source
text — each invocation builds a fresh token list, Parser and `Interpreter()`
(so a fresh variable store and output buffer), and no state survives — hence
two successive invocations of the entry point return identical strings. -/
theorem run_twice_identical (code : String) :
    (runTwice code).1 = (runTwice code).2 := rfl

end EZ

namespace EZ

/-- If a pattern is not a prefix of `c :: cs`, it is not a prefix of the
shorter list `c :: cs.takeWhile p` either. -/
theorem isPrefixOf_false_of_cons_takeWhile {pat : List Char} {c : Char} {cs : List Char}
    (p : Char → Bool) (h : List.isPrefixOf pat (c :: cs) = false) :
    List.isPrefixOf pat (c :: cs.takeWhile p) = false := by
  by_contra hcontra
  rw [Bool.not_eq_false] at hcontra
  have h1 : pat <+: c :: cs.takeWhile p := List.isPrefixOf_iff_prefix.mp hcontra
  obtain ⟨t, ht⟩ := (List.takeWhile_prefix p : cs.takeWhile p <+: cs)
  have h2 : (c :: cs.takeWhile p) <+: (c :: cs) := ⟨t, by rw [List.cons_append, ht]⟩
  have h4 : List.isPrefixOf pat (c :: cs) := List.isPrefixOf_iff_prefix.mpr (h1.trans h2)
  simp [h] at h4

set_option maxHeartbeats 2000000 in
/-- Any IDENTIFIER token produced by a single scan step has as its value the
maximal identifier run at the scan position, and that position starts with
neither keyword — because the PRINT and IF alternatives were tried first and
failed. -/
theorem matchSpec_identifier_val {c : Char} {cs rest : List Char} {tok : Token}
    (h : matchSpec (c :: cs) = some (some tok, rest)) (hk : tok.kind = .IDENTIFIER) :
    tok.val = .vstr ⟨c :: cs.takeWhile isIdentC⟩ ∧
      List.isPrefixOf ['p', 'r', 'i', 'n', 't'] (c :: cs) = false ∧
      List.isPrefixOf ['i', 'f'] (c :: cs) = false := by
  simp only [matchSpec] at h
  by_cases hdig : c.isDigit = true
  · rw [if_pos hdig] at h
    simp only [Option.some.injEq, Prod.mk.injEq] at h
    obtain ⟨h1, h2⟩ := h; subst h1; simp at hk
  rw [if_neg hdig] at h
  by_cases hq : c = '"'
  · rw [if_pos hq] at h
    by_cases hds : cs.dropWhile (· ≠ '"') = []
    · rw [if_pos hds] at h; simp at h
    · rw [if_neg hds] at h
      simp only [Option.some.injEq, Prod.mk.injEq] at h
      obtain ⟨h1, h2⟩ := h; subst h1; simp at hk
  rw [if_neg hq] at h
  by_cases hpr : List.isPrefixOf ['p', 'r', 'i', 'n', 't'] (c :: cs) = true
  · rw [if_pos hpr] at h
    simp only [Option.some.injEq, Prod.mk.injEq] at h
    obtain ⟨h1, h2⟩ := h; subst h1; simp at hk
  rw [if_neg hpr] at h
  by_cases hif : List.isPrefixOf ['i', 'f'] (c :: cs) = true
  · rw [if_pos hif] at h
    simp only [Option.some.injEq, Prod.mk.injEq] at h
    obtain ⟨h1, h2⟩ := h; subst h1; simp at hk
  rw [if_neg hif] at h
  by_cases hlb : c = '\x7b'
  · rw [if_pos hlb] at h
    simp only [Option.some.injEq, Prod.mk.injEq] at h
    obtain ⟨h1, h2⟩ := h; subst h1; simp at hk
  rw [if_neg hlb] at h
  by_cases hrb : c = '\x7d'
  · rw [if_pos hrb] at h
    simp only [Option.some.injEq, Prod.mk.injEq] at h
    obtain ⟨h1, h2⟩ := h; subst h1; simp at hk
  rw [if_neg hrb] at h
  by_cases heq : c = '='
  · rw [if_pos heq] at h
    simp only [Option.some.injEq, Prod.mk.injEq] at h
    obtain ⟨h1, h2⟩ := h; subst h1; simp at hk
  rw [if_neg heq] at h
  by_cases hop : (c = '+' || c = '-' || c = '*' || c = '/') = true
  · rw [if_pos hop] at h
    simp only [Option.some.injEq, Prod.mk.injEq] at h
    obtain ⟨h1, h2⟩ := h; subst h1; simp at hk
  rw [if_neg hop] at h
  by_cases hcmp : (c = '<' || c = '>') = true
  · rw [if_pos hcmp] at h
    by_cases hnx : cs.head? = some '='
    · rw [if_pos hnx] at h
      simp only [Option.some.injEq, Prod.mk.injEq] at h
      obtain ⟨h1, h2⟩ := h; subst h1; simp at hk
    · rw [if_neg hnx] at h
      simp only [Option.some.injEq, Prod.mk.injEq] at h
      obtain ⟨h1, h2⟩ := h; subst h1; simp at hk
  rw [if_neg hcmp] at h
  by_cases hee : List.isPrefixOf ['=', '='] (c :: cs) = true
  · rw [if_pos hee] at h
    simp only [Option.some.injEq, Prod.mk.injEq] at h
    obtain ⟨h1, h2⟩ := h; subst h1; simp at hk
  rw [if_neg hee] at h
  by_cases hlp : c = '('
  · rw [if_pos hlp] at h
    simp only [Option.some.injEq, Prod.mk.injEq] at h
    obtain ⟨h1, h2⟩ := h; subst h1; simp at hk
  rw [if_neg hlp] at h
  by_cases hrp : c = ')'
  · rw [if_pos hrp] at h
    simp only [Option.some.injEq, Prod.mk.injEq] at h
    obtain ⟨h1, h2⟩ := h; subst h1; simp at hk
  rw [if_neg hrp] at h
  by_cases hid : isIdentC c = true
  · rw [if_pos hid] at h
    simp only [Option.some.injEq, Prod.mk.injEq] at h
    obtain ⟨h1, h2⟩ := h; subst h1
    simp only [Bool.not_eq_true] at hpr hif
    exact ⟨rfl, hpr, hif⟩
  rw [if_neg hid] at h
  by_cases hsk : isSkipC c = true
  · rw [if_pos hsk] at h; simp at h
  rw [if_neg hsk] at h
  simp at h

end EZ

namespace EZ

/-- No identifier token anywhere in a lexed token stream has a spelling that
starts with `print` or with `if`: at the position where such a token is
matched the keyword alternatives are tried first, and the token value is a
prefix of the text at that position. -/
theorem lexFuel_identifier_not_keyword :
    ∀ (fuel : Nat) (s : List Char) (tok : Token), tok ∈ lexFuel fuel s →
      tok.kind = .IDENTIFIER →
      ∃ v : String, tok.val = .vstr v ∧
        List.isPrefixOf ['p', 'r', 'i', 'n', 't'] v.data = false ∧
        List.isPrefixOf ['i', 'f'] v.data = false := by
  intro fuel
  induction fuel with
  | zero => intro s tok hmem; simp [lexFuel] at hmem
  | succ n ih =>
    intro s tok hmem hk
    cases s with
    | nil => simp [lexFuel] at hmem
    | cons c cs =>
      simp only [lexFuel] at hmem
      cases hm : matchSpec (c :: cs) with
      | none =>
        rw [hm] at hmem
        exact ih cs tok hmem hk
      | some pr =>
        obtain ⟨ot, rest'⟩ := pr
        cases ot with
        | none =>
          rw [hm] at hmem
          exact ih rest' tok hmem hk
        | some t =>
          rw [hm] at hmem
          rcases List.mem_cons.mp hmem with heq | hmem'
          · subst heq
            obtain ⟨hval, hpr, hif⟩ := matchSpec_identifier_val hm hk
            refine ⟨⟨c :: cs.takeWhile isIdentC⟩, hval, ?_, ?_⟩
            · exact isPrefixOf_false_of_cons_takeWhile isIdentC hpr
            · exact isPrefixOf_false_of_cons_takeWhile isIdentC hif
          · exact ih rest' tok hmem' hk

/-- Claim C10 (counterexample): the claim says a maximal letter run starting
with a keyword lexes as the keyword followed by one IDENTIFIER holding the
remaining characters.  When the remainder itself starts with a keyword this
fails: four letters spelling the if-keyword twice lex as two IF tokens, not
as IF followed by an IDENTIFIER. -/
theorem keyword_remainder_lexes_as_keyword :
    lex "ifif" = [⟨.IF, .vstr "if"⟩, ⟨.IF, .vstr "if"⟩] ∧
      lex "ifif" ≠ [⟨.IF, .vstr "if"⟩, ⟨.IDENTIFIER, .vstr "if"⟩] := ⟨rfl, by decide⟩

/-- Claim C10 (amended): because the PRINT and IF patterns are tried before
IDENTIFIER, a scan position that starts with a keyword always yields that
keyword token, and lexing continues with the remaining characters (which may
themselves begin with keywords); consequently the lexer never produces an
IDENTIFIER token whose spelling starts with `print` or `if`, so such names
cannot be used as variables. -/
theorem identifier_never_starts_with_keyword :
    (∀ (code : String) (tok : Token), tok ∈ lex code → tok.kind = .IDENTIFIER →
        ∀ v : String, tok.val = .vstr v →
          List.isPrefixOf ['p', 'r', 'i', 'n', 't'] v.data = false ∧
          List.isPrefixOf ['i', 'f'] v.data = false) ∧
      lex "ifx" = [⟨.IF, .vstr "if"⟩, ⟨.IDENTIFIER, .vstr "x"⟩] := by
  refine ⟨?_, rfl⟩
  intro code tok hmem hk v hv
  obtain ⟨v', hval, hpr, hif⟩ := lexFuel_identifier_not_keyword _ _ tok hmem hk
  rw [hv] at hval
  cases hval
  exact ⟨hpr, hif⟩

/-- Witness for the amended C10 at a concrete two-letter identifier. -/
theorem identifier_never_starts_with_keyword_witness :
    List.isPrefixOf ['p', 'r', 'i', 'n', 't'] "ab".data = false ∧
      List.isPrefixOf ['i', 'f'] "ab".data = false :=
  identifier_never_starts_with_keyword.1 "ab" ⟨.IDENTIFIER, .vstr "ab"⟩
    (by decide) rfl "ab" rfl

end EZ
